import Mathlib

/-!
Shallow embedding of the authentication/session context of the E-Cell
registration front-end (`src/Ecell-Rec-main/contexts/AuthContext.tsx`).

The component holds an in-memory auth state (user session, admin session,
`isLoading`, `isInitialized`), mirrors sessions into a persistent key-value
store (browser local storage, keys `user` and `admin`), and delegates record
lookups and mutations to an external mock data service.  The service is
embedded as a record of state-transition functions over an abstract service
state `σ`, so theorems quantified over the service hold for every
contract-conforming behaviour; a concrete in-memory instance (`mockService`)
is provided for end-to-end runs.  Wall-clock timestamps
(`new Date().toISOString()`) are passed in explicitly as a `now : String`
parameter.  Each operation additionally returns the list of calls it issued
to the external service, so "performs no lookup" style properties are
directly statable.
-/

set_option autoImplicit false

/-- Lifecycle status of a user record (active / pending / inactive). -/
inductive UserStatus where
  | active
  | pending
  | inactive
  deriving DecidableEq

/-- Role of an admin record (admin / super_admin). -/
inductive AdminRole where
  | admin
  | superAdmin
  deriving DecidableEq

/-- Modelled from the spec: the `User` row type of the backing store
(`@/lib/supabase`, absent from `src/`), restricted to the fields this
component reads (AuthContext.tsx lines 135-143) plus the `last_login`
field written via `updateUser`.  `id`, `created_at`, `updated_at` are
assigned by the store; only `id` is read back here. -/
structure UserRecord where
  id : String
  email : String
  full_name : String
  roll_number : String
  branch : String
  year : String
  phone_number : String
  status : UserStatus
  last_login : Option String
  deriving DecidableEq

/-- Admin record (`AdminUser` interface, AuthContext.tsx lines 18-23); the
value returned by `authenticateAdmin` is stored and persisted verbatim. -/
structure AdminRecord where
  id : String
  username : String
  email : String
  role : AdminRole
  deriving DecidableEq

/-- In-memory user session (`AuthUser` interface, AuthContext.tsx lines 7-16). -/
structure AuthUser where
  id : String
  email : String
  full_name : String
  roll_number : String
  branch : String
  year : String
  phone_number : String
  status : UserStatus
  deriving DecidableEq

/-- Registration input: the User row minus id and the two store-assigned
timestamps (the `Omit` type in the source). -/
structure NewUserData where
  email : String
  full_name : String
  roll_number : String
  branch : String
  year : String
  phone_number : String
  status : UserStatus
  deriving DecidableEq

/-- Registration record created after a successful user creation
(AuthContext.tsx lines 190-195). -/
structure RegistrationData where
  user_id : String
  registration_date : String
  status : String
  submission_status : String
  deriving DecidableEq

/-- Shape of the persisted `user` blob.  `login` writes the keys
`id, name, rollNumber, email, branch, year, phone, status`
(AuthContext.tsx lines 149-158); on restore the code accepts either
field-name variant per field (lines 72-81), so both variants are optional
here.  A field that is `none` models a key absent from the JSON object. -/
structure PersistedUser where
  id : Option String
  name : Option String
  full_name : Option String
  rollNumber : Option String
  roll_number : Option String
  email : String
  branch : String
  year : String
  phone : Option String
  phone_number : Option String
  status : Option UserStatus
  deriving DecidableEq

/-- A value stored under a persistent key: either well-shaped content of
type `α`, or content on which deserialization (`JSON.parse`) throws. -/
inductive Blob (α : Type) where
  | malformed : Blob α
  | value : α → Blob α
  deriving DecidableEq

/-- The persistent key-value store: the two keys this component owns.
`none` models an absent key. -/
structure LocalStorage where
  userKey : Option (Blob PersistedUser)
  adminKey : Option (Blob AdminRecord)
  deriving DecidableEq

/-- In-memory state of the auth context (the four `useState` slots). -/
structure AuthState where
  user : Option AuthUser
  admin : Option AdminRecord
  isLoading : Bool
  isInitialized : Bool
  deriving DecidableEq

/-- Initial in-memory state (`useState(null)`, `useState(false)`). -/
def initialAuthState : AuthState :=
  { user := none, admin := none, isLoading := false, isInitialized := false }

/-- Result value `{ success: boolean; error?: string }` returned by
`login` / `register` / `adminLogin`. -/
structure OpResult where
  success : Bool
  error : Option String
  deriving DecidableEq

/-- Service result `{ data?: UserRecord, error?: string }` returned by
`updateUser` and `createUser`. -/
structure SvcResult where
  data : Option UserRecord
  error : Option String
  deriving DecidableEq

/-- Service result of `createRegistration` (`{data?, error?}`); ignored by
the caller. -/
structure CreateRegResult where
  data : Option RegistrationData
  error : Option String
  deriving DecidableEq

/-- The partial update `{ last_login: ... }` that `login` sends to
`updateUser` (AuthContext.tsx lines 130-132). -/
structure UserUpdate where
  last_login : String
  deriving DecidableEq

/-- One call issued to the external mock data service, with its arguments:
the query trace of an operation. -/
inductive ServiceCall where
  | getUserByEmailCall : String → ServiceCall
  | getUserByRollNumberCall : String → ServiceCall
  | updateUserCall : String → UserUpdate → ServiceCall
  | createUserCall : NewUserData → ServiceCall
  | createRegistrationCall : RegistrationData → ServiceCall
  | authenticateAdminCall : String → String → ServiceCall
  deriving DecidableEq

/-- Modelled from the spec: the external mock data service contract (§6),
`@/lib/mockData`, absent from `src/`.  Each operation is a state transition
on an abstract service state `σ` returning the result value given by the
contract.
Quantifying theorems over this record quantifies over every
contract-conforming service behaviour. -/
structure MockDataService (σ : Type) where
  getUserByEmail : σ → String → Option UserRecord × σ
  getUserByRollNumber : σ → String → Option UserRecord × σ
  updateUser : σ → String → UserUpdate → SvcResult × σ
  createUser : σ → NewUserData → SvcResult × σ
  createRegistration : σ → RegistrationData → CreateRegResult × σ
  authenticateAdmin : σ → String → String → Option AdminRecord × σ

/-- The whole world an operation acts on: in-memory auth state, the
persistent store, and the state of the external service. -/
structure World (σ : Type) where
  auth : AuthState
  store : LocalStorage
  svc : σ

/-- The fixed institutional email domain suffix. -/
def collegeDomain : String := "@raghuenggcollege.in"

def invalidDomainMsg : String :=
  "Please use your college email ID (@raghuenggcollege.in)"

def notFoundMsg : String := "No account found with this email or roll number"

def dupEmailMsg : String := "An account with this email already exists"

def dupRollMsg : String := "An account with this roll number already exists"

def createFailedMsg : String := "Failed to create account. Please try again."

def registerErrorMsg : String :=
  "An error occurred during registration. Please try again."

def invalidCredsMsg : String := "Invalid credentials"

/-- JS `s.includes(c)` for a single character, over the character list
(kernel-computable, unlike the iterator-based `String.contains`). -/
def strContains (s : String) (c : Char) : Bool :=
  s.data.contains c

/-- JS `s.endsWith(suff)`, over the character lists. -/
def strEndsWith (s suff : String) : Bool :=
  suff.data.isSuffixOf s.data

/-- JS `s.toUpperCase()` (ASCII case mapping), over the character list. -/
def strToUpper (s : String) : String :=
  ⟨s.data.map Char.toUpper⟩

/-- JS truthiness filter for string-or-absent values: `undefined` and the
empty string are falsy. -/
def jsTruthy : Option String → Option String
  | none => none
  | some s => if s = "" then none else some s

/-- JS `a || b` on string-or-absent values. -/
def jsOrElse (a b : Option String) : Option String :=
  match jsTruthy a with
  | some v => some v
  | none => jsTruthy b

/-- JS `a || d` with a definite default. -/
def jsOrDefault (a : Option String) (d : String) : String :=
  (jsTruthy a).getD d

/-- Set `isLoading` to true: the `setIsLoading(true)` at the head of
`login` / `register` / `adminLogin`. -/
def startLoading {σ : Type} (w : World σ) : World σ :=
  { w with auth := { w.auth with isLoading := true } }

/-- Set `isLoading` back to false: the `finally { setIsLoading(false) }`. -/
def stopLoading {σ : Type} (w : World σ) : World σ :=
  { w with auth := { w.auth with isLoading := false } }

/-- The session user built from a fetched record (AuthContext.tsx 135-144). -/
def authUserOf (u : UserRecord) : AuthUser :=
  { id := u.id, email := u.email, full_name := u.full_name,
    roll_number := u.roll_number, branch := u.branch, year := u.year,
    phone_number := u.phone_number, status := u.status }

/-- The denormalized mirror `login` serializes under the `user` key
(AuthContext.tsx lines 149-158). -/
def mirrorOf (u : UserRecord) : PersistedUser :=
  { id := some u.id, name := some u.full_name, full_name := none,
    rollNumber := some u.roll_number, roll_number := none,
    email := u.email, branch := u.branch, year := u.year,
    phone := some u.phone_number, phone_number := none,
    status := some u.status }

/-- The lookup `login` delegates to the service: by email when the
identifier contains `@`, otherwise by upper-cased roll number
(AuthContext.tsx lines 112-118).  Returns the result, the new service
state, and the call issued. -/
def loginLookup {σ : Type} (M : MockDataService σ) (s : σ)
    (emailOrRoll : String) : Option UserRecord × σ × ServiceCall :=
  if strContains emailOrRoll '@' then
    let (r, s₁) := M.getUserByEmail s emailOrRoll
    (r, s₁, ServiceCall.getUserByEmailCall emailOrRoll)
  else
    let (r, s₁) := M.getUserByRollNumber s (strToUpper emailOrRoll)
    (r, s₁, ServiceCall.getUserByRollNumberCall (strToUpper emailOrRoll))

/-- Body of `login` (the `try` block, AuthContext.tsx lines 106-160),
entered with `isLoading` already true.  The supplied password is never
consulted (lines 126-127 of the source are a comment to that effect). -/
def loginBody {σ : Type} (M : MockDataService σ) (now : String) (w : World σ)
    (emailOrRoll _password : String) : OpResult × World σ × List ServiceCall :=
  if strContains emailOrRoll '@' && !(strEndsWith emailOrRoll collegeDomain) then
    ({ success := false, error := some invalidDomainMsg }, w, [])
  else
    match loginLookup M w.svc emailOrRoll with
    | (none, s₁, call) =>
      ({ success := false, error := some notFoundMsg },
       { w with svc := s₁ }, [call])
    | (some userData, s₁, call) =>
      let upd : UserUpdate := { last_login := now }
      let (_, s₂) := M.updateUser s₁ userData.id upd
      ({ success := true, error := none },
       { auth := { w.auth with user := some (authUserOf userData) },
         store := { w.store with userKey := some (Blob.value (mirrorOf userData)) },
         svc := s₂ },
       [call, ServiceCall.updateUserCall userData.id upd])

/-- Operation `login(emailOrRoll, password)` (AuthContext.tsx lines 104-167):
`setIsLoading(true)`, the `try` body, `finally setIsLoading(false)`. -/
def login {σ : Type} (M : MockDataService σ) (now : String) (w : World σ)
    (emailOrRoll password : String) : OpResult × World σ × List ServiceCall :=
  let (r, w₁, calls) := loginBody M now (startLoading w) emailOrRoll password
  (r, stopLoading w₁, calls)

/-- Operation `logout()` (AuthContext.tsx lines 206-209): clears the in-memory user
and removes the persisted `user` key.  Takes no service argument: it can
make no external call. -/
def logout {σ : Type} (w : World σ) : World σ :=
  { w with auth := { w.auth with user := none },
           store := { w.store with userKey := none } }

/-- JS truthiness of the `error` field (`if (userResult.error)`,
AuthContext.tsx line 185): a present, non-empty string. -/
def errTruthy : Option String → Bool
  | none => false
  | some s => s != ""

/-- Body of `register` (the `try` block, AuthContext.tsx lines 171-197),
entered with `isLoading` already true.  When `createUser` reports no error
but also no data, the non-null assertion `userResult.data!.id` dereferences
`undefined`; the thrown fault is caught by the surrounding `catch`
(lines 198-200), which yields the generic registration error. -/
def registerBody {σ : Type} (M : MockDataService σ) (now : String)
    (w : World σ) (userData : NewUserData) :
    OpResult × World σ × List ServiceCall :=
  let (byEmail, s₁) := M.getUserByEmail w.svc userData.email
  let c₁ := ServiceCall.getUserByEmailCall userData.email
  match byEmail with
  | some _ =>
    ({ success := false, error := some dupEmailMsg }, { w with svc := s₁ }, [c₁])
  | none =>
    let (byRoll, s₂) := M.getUserByRollNumber s₁ userData.roll_number
    let c₂ := ServiceCall.getUserByRollNumberCall userData.roll_number
    match byRoll with
    | some _ =>
      ({ success := false, error := some dupRollMsg },
       { w with svc := s₂ }, [c₁, c₂])
    | none =>
      let (created, s₃) := M.createUser s₂ userData
      let c₃ := ServiceCall.createUserCall userData
      if errTruthy created.error then
        ({ success := false, error := some createFailedMsg },
         { w with svc := s₃ }, [c₁, c₂, c₃])
      else
        match created.data with
        | none =>
          ({ success := false, error := some registerErrorMsg },
           { w with svc := s₃ }, [c₁, c₂, c₃])
        | some u =>
          let regData : RegistrationData :=
            { user_id := u.id, registration_date := now,
              status := "active", submission_status := "none" }
          let (_, s₄) := M.createRegistration s₃ regData
          ({ success := true, error := none }, { w with svc := s₄ },
           [c₁, c₂, c₃, ServiceCall.createRegistrationCall regData])

/-- Operation `register(userData)` (AuthContext.tsx lines 169-204). -/
def register {σ : Type} (M : MockDataService σ) (now : String) (w : World σ)
    (userData : NewUserData) : OpResult × World σ × List ServiceCall :=
  let (r, w₁, calls) := registerBody M now (startLoading w) userData
  (r, stopLoading w₁, calls)

/-- Body of `adminLogin` (the `try` block, AuthContext.tsx lines 214-222). -/
def adminLoginBody {σ : Type} (M : MockDataService σ) (w : World σ)
    (username password : String) : OpResult × World σ × List ServiceCall :=
  let (res, s₁) := M.authenticateAdmin w.svc username password
  let call := ServiceCall.authenticateAdminCall username password
  match res with
  | some adminData =>
    ({ success := true, error := none },
     { auth := { w.auth with admin := some adminData },
       store := { w.store with adminKey := some (Blob.value adminData) },
       svc := s₁ }, [call])
  | none =>
    ({ success := false, error := some invalidCredsMsg },
     { w with svc := s₁ }, [call])

/-- Operation `adminLogin(username, password)` (AuthContext.tsx lines 212-229). -/
def adminLogin {σ : Type} (M : MockDataService σ) (w : World σ)
    (username password : String) : OpResult × World σ × List ServiceCall :=
  let (r, w₁, calls) := adminLoginBody M (startLoading w) username password
  (r, stopLoading w₁, calls)

/-- Operation `adminLogout()` (AuthContext.tsx lines 231-234). -/
def adminLogout {σ : Type} (w : World σ) : World σ :=
  { w with auth := { w.auth with admin := none },
           store := { w.store with adminKey := none } }

/-- The session user rebuilt from a persisted blob on restore
(AuthContext.tsx lines 72-81), with the `||` fallbacks between field-name
variants.  A field whose both variants are absent is `undefined` in JS;
the embedding renders that as the empty string. -/
def restoreUser (u : PersistedUser) : AuthUser :=
  { id := jsOrDefault u.id "user-1",
    email := u.email,
    full_name := (jsOrElse u.name u.full_name).getD "",
    roll_number := (jsOrElse u.rollNumber u.roll_number).getD "",
    branch := u.branch,
    year := u.year,
    phone_number := (jsOrElse u.phone u.phone_number).getD "",
    status := u.status.getD UserStatus.active }

/-- Operation `initializeAuth` (AuthContext.tsx lines 65-101).  One `try` block reads
and deserializes the `user` key and then the `admin` key; a `JSON.parse`
failure on either jumps to the single `catch`, which removes BOTH persisted
keys (lines 93-94) and skips the rest of the block; the `finally` sets
`isInitialized := true` on every path.  Makes no external service call. -/
def initializeAuth {σ : Type} (w : World σ) : World σ :=
  match w.store.userKey with
  | some Blob.malformed =>
    { w with auth := { w.auth with isInitialized := true },
             store := { userKey := none, adminKey := none } }
  | none =>
    match w.store.adminKey with
    | some Blob.malformed =>
      { w with auth := { w.auth with isInitialized := true },
               store := { userKey := none, adminKey := none } }
    | none =>
      { w with auth := { w.auth with isInitialized := true } }
    | some (Blob.value a) =>
      { w with auth := { w.auth with admin := some a, isInitialized := true } }
  | some (Blob.value u) =>
    match w.store.adminKey with
    | some Blob.malformed =>
      { w with auth := { w.auth with user := some (restoreUser u),
                                     isInitialized := true },
               store := { userKey := none, adminKey := none } }
    | none =>
      { w with auth := { w.auth with user := some (restoreUser u),
                                     isInitialized := true } }
    | some (Blob.value a) =>
      { w with auth := { w.auth with user := some (restoreUser u),
                                     admin := some a,
                                     isInitialized := true } }

/-- Modelled from the spec: backing store of the mock data service
(§2: "CRUD over an in-memory or mock backing store"), absent from `src/`:
a list of user records, a list of registration records, a credential table
for admins, and a counter for assigning fresh user ids. -/
structure MockDB where
  users : List UserRecord
  registrations : List RegistrationData
  admins : List (String × String × AdminRecord)
  nextId : Nat
  deriving DecidableEq

/-- Modelled from the spec: the concrete in-memory mock data service
(`@/lib/mockData`, absent from `src/`), implementing the §6 contract over
`MockDB`: lookups find by exact field match, `createUser` assigns a fresh
id and appends, `updateUser` sets `last_login` on the matching record,
`authenticateAdmin` matches username and password in the credential
table. -/
def mockService : MockDataService MockDB where
  getUserByEmail := fun db e =>
    (db.users.find? (fun u => u.email = e), db)
  getUserByRollNumber := fun db r =>
    (db.users.find? (fun u => u.roll_number = r), db)
  updateUser := fun db i upd =>
    ({ data := db.users.find? (fun u => u.id = i), error := none },
     { db with users := db.users.map (fun u =>
         if u.id = i then { u with last_login := some upd.last_login } else u) })
  createUser := fun db d =>
    let newU : UserRecord :=
      { id := "user-" ++ toString db.nextId, email := d.email,
        full_name := d.full_name, roll_number := d.roll_number,
        branch := d.branch, year := d.year, phone_number := d.phone_number,
        status := d.status, last_login := none }
    ({ data := some newU, error := none },
     { db with users := db.users ++ [newU], nextId := db.nextId + 1 })
  createRegistration := fun db r =>
    ({ data := some r, error := none },
     { db with registrations := db.registrations ++ [r] })
  authenticateAdmin := fun db u p =>
    ((db.admins.find? (fun c => c.1 = u ∧ c.2.1 = p)).map (fun c => c.2.2), db)

/-- Worlds reachable from a fresh mount (initial in-memory state, arbitrary
persisted store left by a previous run, initial service state `s₀`) by
completed context operations. -/
inductive Reachable {σ : Type} (M : MockDataService σ) (s₀ : σ) : World σ → Prop
  | start (ls : LocalStorage) :
      Reachable M s₀ { auth := initialAuthState, store := ls, svc := s₀ }
  | initStep {w : World σ} : Reachable M s₀ w → Reachable M s₀ (initializeAuth w)
  | loginStep {w : World σ} (now emailOrRoll password : String) :
      Reachable M s₀ w →
      Reachable M s₀ (login M now w emailOrRoll password).2.1
  | registerStep {w : World σ} (now : String) (d : NewUserData) :
      Reachable M s₀ w → Reachable M s₀ (register M now w d).2.1
  | logoutStep {w : World σ} : Reachable M s₀ w → Reachable M s₀ (logout w)
  | adminLoginStep {w : World σ} (username password : String) :
      Reachable M s₀ w →
      Reachable M s₀ (adminLogin M w username password).2.1
  | adminLogoutStep {w : World σ} :
      Reachable M s₀ w → Reachable M s₀ (adminLogout w)

/-- An empty mock backing store. -/
def emptyDB : MockDB :=
  { users := [], registrations := [], admins := [], nextId := 1 }

/-- A fresh world over the empty mock store. -/
def world0 : World MockDB :=
  { auth := initialAuthState,
    store := { userKey := none, adminKey := none },
    svc := emptyDB }

/-- Witness for C4 at a concrete non-institutional email over a store that
does hold a matching account. -/
def gmailUser : UserRecord :=
  { id := "user-9", email := "x@gmail.com", full_name := "X",
    roll_number := "R9", branch := "ECE", year := "2",
    phone_number := "7", status := UserStatus.active, last_login := none }

def gmailWorld : World MockDB :=
  { auth := initialAuthState,
    store := { userKey := none, adminKey := none },
    svc := { emptyDB with users := [gmailUser] } }

/-- Witness for C8: a service whose `updateUser` always fails, holding one
institutional account; login still succeeds and persists the mirror. -/
def collegeUser : UserRecord :=
  { id := "user-1", email := "a@raghuenggcollege.in", full_name := "A",
    roll_number := "R1", branch := "CSE", year := "1",
    phone_number := "9", status := UserStatus.active, last_login := none }

def failingUpdateService : MockDataService MockDB :=
  { mockService with
    updateUser := fun db _ _ =>
      ({ data := none, error := some "update failed" }, db) }

def collegeWorld : World MockDB :=
  { auth := initialAuthState,
    store := { userKey := none, adminKey := none },
    svc := { emptyDB with users := [collegeUser] } }

/-- A concrete admin record for counterexamples. -/
def adminRec0 : AdminRecord :=
  { id := "admin-1", username := "root",
    email := "root@raghuenggcollege.in", role := AdminRole.admin }

/-- A world whose persisted `user` content is malformed while its
persisted `admin` content is perfectly well-formed. -/
def corruptedUserWorld : World MockDB :=
  { auth := initialAuthState,
    store := { userKey := some Blob.malformed,
               adminKey := some (Blob.value adminRec0) },
    svc := emptyDB }

/-- The registration input of the claim C3 test: email `a@inst.edu`,
roll number `R1`. -/
def newUserA : NewUserData :=
  { email := "a@inst.edu", full_name := "A", roll_number := "R1",
    branch := "CSE", year := "1", phone_number := "9",
    status := UserStatus.active }

/-- The C3 witness input: institutional email, roll number `R1`. -/
def newUserInst : NewUserData :=
  { email := "a@raghuenggcollege.in", full_name := "A", roll_number := "R1",
    branch := "CSE", year := "1", phone_number := "9",
    status := UserStatus.active }

/-- Claim C1: for every service behaviour, state, identifier and pair of
passwords, `login` returns the same result, the same final world and the
same call trace for both passwords: the password argument has no influence
on the outcome (any password is accepted for an existing record). -/
theorem login_ignores_password {σ : Type} (M : MockDataService σ)
    (now : String) (w : World σ) (emailOrRoll p₁ p₂ : String) :
    login M now w emailOrRoll p₁ = login M now w emailOrRoll p₂ := rfl

/-- Claim C4: for every identifier containing `@` that does not end with
`@raghuenggcollege.in`, and every password and world — including worlds
whose service holds a matching account — `login` fails with the
InvalidDomain message, issues no service call, and leaves the service
state untouched. -/
theorem login_invalid_domain {σ : Type} (M : MockDataService σ)
    (now : String) (w : World σ) (e p : String)
    (h₁ : strContains e '@' = true) (h₂ : strEndsWith e collegeDomain = false) :
    (login M now w e p).1 = { success := false, error := some invalidDomainMsg } ∧
    (login M now w e p).2.2 = [] ∧
    (login M now w e p).2.1.svc = w.svc := by
  unfold login loginBody
  simp [h₁, h₂, startLoading, stopLoading]

theorem login_invalid_domain_witness :
    (strContains "x@gmail.com" '@' = true) ∧
    (strEndsWith "x@gmail.com" collegeDomain = false) ∧
    (login mockService "t" gmailWorld "x@gmail.com" "pw").1 =
      { success := false, error := some invalidDomainMsg } :=
  ⟨by decide, by decide,
   (login_invalid_domain mockService "t" gmailWorld "x@gmail.com" "pw"
     (by decide) (by decide)).1⟩

/-- Claim C6: for every identifier not containing `@`, `login` upper-cases
the identifier before delegating the lookup: its first service call is
`getUserByRollNumber` on the upper-cased identifier; consequently two
identifiers with the same upper-casing (differing only in letter case)
produce entirely identical login runs — same result, same final world,
same call trace. -/
theorem login_rollnumber_uppercased {σ : Type} (M : MockDataService σ)
    (now : String) (w : World σ) (e₁ e₂ p : String)
    (h₁ : strContains e₁ '@' = false) (h₂ : strContains e₂ '@' = false)
    (h₃ : strToUpper e₁ = strToUpper e₂) :
    ((login M now w e₁ p).2.2).head? =
      some (ServiceCall.getUserByRollNumberCall (strToUpper e₁)) ∧
    login M now w e₁ p = login M now w e₂ p := by
  constructor
  · unfold login loginBody loginLookup
    simp only [h₁, Bool.false_and, Bool.false_eq_true, if_false]
    rcases hr : M.getUserByRollNumber (startLoading w).svc (strToUpper e₁) with ⟨r, s⟩
    cases r <;> simp [hr]
  · unfold login loginBody loginLookup
    rw [h₃]
    simp [h₁, h₂]

theorem login_rollnumber_uppercased_witness :
    (strContains "abc123" '@' = false) ∧
    (strContains "ABC123" '@' = false) ∧
    (strToUpper "abc123" = strToUpper "ABC123") ∧
    login mockService "t" world0 "abc123" "pw" =
      login mockService "t" world0 "ABC123" "pw" :=
  ⟨by decide, by decide, by decide,
   (login_rollnumber_uppercased mockService "t" world0 "abc123" "ABC123" "pw"
     (by decide) (by decide) (by decide)).2⟩

/-- Claim C10: for every service behaviour, world, clock value and
registration input — whatever the outcome — `register` leaves the
in-memory user and admin sessions untouched and leaves the persistent
store (both the `user` and the `admin` records) untouched: registration
never establishes a session. -/
theorem register_never_touches_sessions {σ : Type} (M : MockDataService σ)
    (now : String) (w : World σ) (d : NewUserData) :
    (register M now w d).2.1.auth.user = w.auth.user ∧
    (register M now w d).2.1.auth.admin = w.auth.admin ∧
    (register M now w d).2.1.store = w.store := by
  unfold register registerBody
  rcases he : M.getUserByEmail (startLoading w).svc d.email with ⟨re, s₁⟩
  cases re with
  | some u => simp [he, startLoading, stopLoading]
  | none =>
    rcases hr : M.getUserByRollNumber s₁ d.roll_number with ⟨rr, s₂⟩
    cases rr with
    | some u => simp [he, hr, startLoading, stopLoading]
    | none =>
      rcases hc : M.createUser s₂ d with ⟨cr, s₃⟩
      by_cases herr : errTruthy cr.error
      · simp [he, hr, hc, herr, startLoading, stopLoading]
      · rcases hd : cr.data with _ | u
        · simp [he, hr, hc, herr, hd, startLoading, stopLoading]
        · simp [he, hr, hc, herr, hd, startLoading, stopLoading]

/-- Claim C8: for every service behaviour — in particular for every
behaviour of `updateUser`, including returning an error — whenever the
identifier passes the domain check and the lookup finds a record `u`,
`login` still succeeds, sets `u` (as a session user) as the current
state, and persists its denormalized mirror.  The service `M` is
universally quantified and no assumption constrains `M.updateUser`, so
the conclusion holds whatever result the last-login update returns. -/
theorem login_lastlogin_best_effort {σ : Type} (M : MockDataService σ)
    (now : String) (w : World σ) (e p : String) (u : UserRecord)
    (hdom : (strContains e '@' && !(strEndsWith e collegeDomain)) = false)
    (hfind : (loginLookup M w.svc e).1 = some u) :
    (login M now w e p).1 = { success := true, error := none } ∧
    (login M now w e p).2.1.auth.user = some (authUserOf u) ∧
    (login M now w e p).2.1.store.userKey = some (Blob.value (mirrorOf u)) := by
  unfold login loginBody
  rcases hl : loginLookup M (startLoading w).svc e with ⟨r, s₁, c⟩
  have hr : r = some u := by
    have : (loginLookup M w.svc e).1 = r := by rw [show w.svc = (startLoading w).svc from rfl, hl]
    rw [← this, hfind]
  subst hr
  rcases hu : M.updateUser s₁ u.id { last_login := now } with ⟨ur, s₂⟩
  simp [hdom, hl, hu, startLoading, stopLoading]

theorem login_lastlogin_best_effort_witness :
    ((strContains "a@raghuenggcollege.in" '@' &&
        !(strEndsWith "a@raghuenggcollege.in" collegeDomain)) = false) ∧
    ((loginLookup failingUpdateService collegeWorld.svc
        "a@raghuenggcollege.in").1 = some collegeUser) ∧
    (login failingUpdateService "t" collegeWorld "a@raghuenggcollege.in" "pw").1 =
      { success := true, error := none } :=
  ⟨by decide, by decide,
   (login_lastlogin_best_effort failingUpdateService "t" collegeWorld
     "a@raghuenggcollege.in" "pw" collegeUser (by decide) (by decide)).1⟩

/-- Claim C7: `logout` sets the in-memory user session to absent and
removes the persisted `user` record; it takes no service argument and
leaves the service state untouched (no external call); it is idempotent,
and when no user session and no persisted user record exist it is a
no-op; after `logout`, a subsequent `initializeAuth` restores no user
session. -/
theorem logout_clears_user_session {σ : Type} (w : World σ) :
    (logout w).auth.user = none ∧
    (logout w).store.userKey = none ∧
    (logout w).svc = w.svc ∧
    logout (logout w) = logout w ∧
    (w.auth.user = none → w.store.userKey = none → logout w = w) ∧
    (initializeAuth (logout w)).auth.user = none := by
  refine ⟨rfl, rfl, rfl, rfl, ?_, ?_⟩
  · intro h₁ h₂
    rcases w with ⟨⟨u, a, l, i⟩, ⟨uk, ak⟩, s⟩
    simp only at h₁ h₂
    subst h₁; subst h₂
    rfl
  · rcases h : w.store.adminKey with _ | b
    · simp [logout, initializeAuth, h]
    · cases b <;> simp [logout, initializeAuth, h]

theorem logout_clears_user_session_witness :
    logout (World.mk initialAuthState
      { userKey := none, adminKey := none } emptyDB) =
    World.mk initialAuthState { userKey := none, adminKey := none } emptyDB :=
  (logout_clears_user_session
    (World.mk initialAuthState { userKey := none, adminKey := none } emptyDB)
    ).2.2.2.2.1 rfl rfl

/-- Counterexample to claim C2 as stated: with a malformed `user` record
and a well-formed `admin` record, `initializeAuth` does not delete exactly
the corresponding persisted key — the `admin` key, which held
deserializable content, is deleted as well (the single catch removes both
keys, AuthContext.tsx lines 92-94). -/
theorem initialize_deletes_both_keys_cex :
    corruptedUserWorld.store.adminKey = some (Blob.value adminRec0) ∧
    (initializeAuth corruptedUserWorld).store.adminKey = none := by
  exact ⟨rfl, rfl⟩

/-- Claim C2, amended: on malformed persisted content under either session
key, `initializeAuth` catches the failure, deletes BOTH persisted keys
(`user` and `admin`, not just the corresponding one), restores no session
from the malformed key (the auth slot of a malformed `user` key is left
unchanged, and the admin session is never populated on any malformed
path), does not crash (the function is total), and ends with
`isInitialized = true`. -/
theorem initialize_malformed_recovery {σ : Type} (w : World σ)
    (h : w.store.userKey = some Blob.malformed ∨
         w.store.adminKey = some Blob.malformed) :
    (initializeAuth w).store.userKey = none ∧
    (initializeAuth w).store.adminKey = none ∧
    (initializeAuth w).auth.isInitialized = true ∧
    (initializeAuth w).auth.admin = w.auth.admin ∧
    (w.store.userKey = some Blob.malformed →
      (initializeAuth w).auth.user = w.auth.user) := by
  rcases hu : w.store.userKey with _ | bu
  · rcases ha : w.store.adminKey with _ | ba
    · rcases h with h | h
      · rw [hu] at h; exact absurd h (by simp)
      · rw [ha] at h; exact absurd h (by simp)
    · cases ba with
      | malformed => simp [initializeAuth, hu, ha]
      | value a =>
        rcases h with h | h
        · rw [hu] at h; exact absurd h (by simp)
        · rw [ha] at h; exact absurd h (by simp)
  · cases bu with
    | malformed => simp [initializeAuth, hu]
    | value u =>
      rcases ha : w.store.adminKey with _ | ba
      · rcases h with h | h
        · rw [hu] at h; exact absurd h (by simp)
        · rw [ha] at h; exact absurd h (by simp)
      · cases ba with
        | malformed => simp [initializeAuth, hu, ha]
        | value a =>
          rcases h with h | h
          · rw [hu] at h; exact absurd h (by simp)
          · rw [ha] at h; exact absurd h (by simp)

theorem initialize_malformed_recovery_witness :
    (corruptedUserWorld.store.userKey = some Blob.malformed ∨
      corruptedUserWorld.store.adminKey = some Blob.malformed) ∧
    (initializeAuth corruptedUserWorld).store.userKey = none ∧
    (initializeAuth corruptedUserWorld).auth.isInitialized = true :=
  ⟨Or.inl rfl,
   (initialize_malformed_recovery corruptedUserWorld (Or.inl rfl)).1,
   (initialize_malformed_recovery corruptedUserWorld (Or.inl rfl)).2.2.1⟩

/-- Helper: `initializeAuth` never touches the `isLoading` flag. -/
theorem initializeAuth_isLoading {σ : Type} (w : World σ) :
    (initializeAuth w).auth.isLoading = w.auth.isLoading := by
  rcases w with ⟨a, ⟨uk, ak⟩, s⟩
  rcases uk with _ | (_ | u) <;> rcases ak with _ | (_ | b) <;> rfl

/-- Invariant: every world reachable through completed context operations
has `isLoading = false` — the flag is only ever true inside an in-flight
`login` / `register` / `adminLogin` call. -/
theorem reachable_not_loading {σ : Type} (M : MockDataService σ) (s₀ : σ) :
    ∀ w, Reachable M s₀ w → w.auth.isLoading = false := by
  intro w h
  induction h with
  | start ls => rfl
  | initStep _ ih => rw [initializeAuth_isLoading]; exact ih
  | loginStep now e p _ _ => rfl
  | registerStep now d _ _ => rfl
  | logoutStep _ ih => exact ih
  | adminLoginStep un pw _ _ => rfl
  | adminLogoutStep _ ih => exact ih

/-- Claim C9: each of `login`, `register`, `adminLogin` begins by setting
`isLoading` to true (each is definitionally its body run on
`startLoading w`, whose `isLoading` is true) and on every outcome its
final world has `isLoading = false`; and outside any in-flight call —
i.e. in every world reachable through completed operations — `isLoading`
is false. -/
theorem isLoading_true_only_during_calls {σ : Type} (M : MockDataService σ)
    (s₀ : σ) (now : String) (w : World σ) (e p un pw : String)
    (d : NewUserData) :
    (startLoading w).auth.isLoading = true ∧
    login M now w e p =
      ((loginBody M now (startLoading w) e p).1,
       stopLoading (loginBody M now (startLoading w) e p).2.1,
       (loginBody M now (startLoading w) e p).2.2) ∧
    register M now w d =
      ((registerBody M now (startLoading w) d).1,
       stopLoading (registerBody M now (startLoading w) d).2.1,
       (registerBody M now (startLoading w) d).2.2) ∧
    adminLogin M w un pw =
      ((adminLoginBody M (startLoading w) un pw).1,
       stopLoading (adminLoginBody M (startLoading w) un pw).2.1,
       (adminLoginBody M (startLoading w) un pw).2.2) ∧
    (login M now w e p).2.1.auth.isLoading = false ∧
    (register M now w d).2.1.auth.isLoading = false ∧
    (adminLogin M w un pw).2.1.auth.isLoading = false ∧
    (∀ w', Reachable M s₀ w' → w'.auth.isLoading = false) :=
  ⟨rfl, rfl, rfl, rfl, rfl, rfl, rfl, reachable_not_loading M s₀⟩

theorem isLoading_true_only_during_calls_witness :
    (startLoading world0).auth.isLoading = true ∧
    world0.auth.isLoading = false :=
  ⟨(isLoading_true_only_during_calls mockService emptyDB "t" world0
      "e" "p" "u" "q" ⟨"e", "n", "r", "b", "y", "ph",
        UserStatus.active⟩).1,
   (isLoading_true_only_during_calls mockService emptyDB "t" world0
      "e" "p" "u" "q" ⟨"e", "n", "r", "b", "y", "ph",
        UserStatus.active⟩).2.2.2.2.2.2.2 world0
     (Reachable.start { userKey := none, adminKey := none })⟩

/-- Claim C5: over the mock store, when the email of the registration input
collides with an existing record AND its roll number also collides with
an existing record, `register` fails with the DuplicateEmail message and
not the DuplicateRollNumber message: the email uniqueness check runs
first (AuthContext.tsx lines 172-181). -/
theorem register_duplicate_email_checked_first (w : World MockDB)
    (now : String) (d : NewUserData)
    (h₁ : (w.svc.users.find? (fun u => u.email = d.email)).isSome = true)
    (_h₂ : (w.svc.users.find? (fun u => u.roll_number = d.roll_number)).isSome
        = true) :
    (register mockService now w d).1 =
      { success := false, error := some dupEmailMsg } ∧
    (register mockService now w d).1.error ≠ some dupRollMsg := by
  obtain ⟨u, hu⟩ := Option.isSome_iff_exists.mp h₁
  have key : (register mockService now w d).1 =
      { success := false, error := some dupEmailMsg } := by
    unfold register registerBody mockService
    simp [hu, startLoading, stopLoading]
  refine ⟨key, ?_⟩
  rw [key]
  decide

/-- Witness for C5: a store holding one record that collides with the
input on both email and roll number. -/
theorem register_duplicate_email_checked_first_witness :
    ((collegeWorld.svc.users.find?
        (fun u => u.email = "a@raghuenggcollege.in")).isSome = true) ∧
    ((collegeWorld.svc.users.find?
        (fun u => u.roll_number = "R1")).isSome = true) ∧
    (register mockService "t" collegeWorld
        { email := "a@raghuenggcollege.in", full_name := "B",
          roll_number := "R1", branch := "EEE", year := "2",
          phone_number := "8", status := UserStatus.pending }).1 =
      { success := false, error := some dupEmailMsg } :=
  ⟨by decide, by decide,
   (register_duplicate_email_checked_first collegeWorld "t"
      { email := "a@raghuenggcollege.in", full_name := "B",
        roll_number := "R1", branch := "EEE", year := "2",
        phone_number := "8", status := UserStatus.pending }
      (by decide) (by decide)).1⟩

/-- Counterexample to claim C3 as stated: over the empty store (no record
with email `a@inst.edu`, none with roll number `R1`),
`register({email:"a@inst.edu", roll_number:"R1", ...})` succeeds, but the
subsequent `login("a@inst.edu", anyPassword)` does NOT succeed — the
identifier contains `@` and does not end with `@raghuenggcollege.in`, so
login rejects it with the InvalidDomain message before any lookup
(AuthContext.tsx lines 107-110; `register` itself never checks the
domain). -/
theorem register_then_login_domain_cex :
    (register mockService "t0" world0 newUserA).1.success = true ∧
    (login mockService "t1" (register mockService "t0" world0 newUserA).2.1
        "a@inst.edu" "pw").1 =
      { success := false, error := some invalidDomainMsg } := by
  exact ⟨by decide, by decide⟩

/-- Claim C3, amended: the register-then-login round trip holds once the
email lies in the institutional domain.  For every mock-store state with
no record under the email `a@raghuenggcollege.in` and none under the roll
number `R1`, after `register` succeeds on such an input, a subsequent
`login` with that email and any password succeeds and the resulting
roll number of the resulting session user is `R1`. -/
theorem register_then_login_institutional (w : World MockDB)
    (now₁ now₂ pw : String) (d : NewUserData)
    (he : d.email = "a@raghuenggcollege.in")
    (hrn : d.roll_number = "R1")
    (h₁ : w.svc.users.find? (fun u => u.email = d.email) = none)
    (h₂ : w.svc.users.find? (fun u => u.roll_number = d.roll_number) = none) :
    (register mockService now₁ w d).1.success = true ∧
    (login mockService now₂ (register mockService now₁ w d).2.1
        d.email pw).1.success = true ∧
    ((login mockService now₂ (register mockService now₁ w d).2.1
        d.email pw).2.1.auth.user.map (fun u => u.roll_number))
      = some "R1" := by
  classical
  set newU : UserRecord :=
    { id := "user-" ++ toString w.svc.nextId, email := d.email,
      full_name := d.full_name, roll_number := d.roll_number,
      branch := d.branch, year := d.year, phone_number := d.phone_number,
      status := d.status, last_login := none } with hnewU
  have hdom : strContains d.email '@' = true := by rw [he]; decide
  have hsuffix : strEndsWith d.email collegeDomain = true := by
    rw [he]; decide
  have hsuccess : (register mockService now₁ w d).1.success = true := by
    unfold register registerBody mockService
    simp [h₁, h₂, startLoading, stopLoading, errTruthy]
  have hsvc : (register mockService now₁ w d).2.1.svc.users =
      w.svc.users ++ [newU] := by
    unfold register registerBody mockService
    simp [h₁, h₂, startLoading, stopLoading, errTruthy, hnewU]
  have hfind₂ : ((w.svc.users ++ [newU]).find?
      (fun u => u.email = d.email)) = some newU := by
    rw [List.find?_append, h₁, Option.none_or]
    simp [List.find?, hnewU]
  have main : ∀ w' : World MockDB, w'.svc.users = w.svc.users ++ [newU] →
      (login mockService now₂ w' d.email pw).1.success = true ∧
      ((login mockService now₂ w' d.email pw).2.1.auth.user.map
        (fun u => u.roll_number)) = some "R1" := by
    intro w' hsvc'
    have hfind' : w'.svc.users.find?
        (fun u => u.email = d.email) = some newU := by
      rw [hsvc']; exact hfind₂
    unfold login loginBody loginLookup mockService
    simp [hdom, hsuffix, hfind', authUserOf, startLoading, stopLoading, hrn,
      hnewU]
  exact ⟨hsuccess, (main _ hsvc).1, (main _ hsvc).2⟩

theorem register_then_login_institutional_witness :
    (register mockService "t0" world0 newUserInst).1.success = true ∧
    ((login mockService "t1" (register mockService "t0" world0 newUserInst).2.1
        newUserInst.email "pw").2.1.auth.user.map (fun u => u.roll_number))
      = some "R1" :=
  ⟨(register_then_login_institutional world0 "t0" "t1" "pw" newUserInst
      rfl rfl (by decide) (by decide)).1,
   (register_then_login_institutional world0 "t0" "t1" "pw" newUserInst
      rfl rfl (by decide) (by decide)).2.2⟩
